import Mathlib

/-!
Shallow embedding of the SolMeet Anchor program
(`src/programs/solmeet/src/lib.rs`), an on-chain event registry with
capacity-bounded claims, together with proofs of its specification claims.

Modelling conventions:
* A Solana `Pubkey` is abstracted as a natural number identity.
* Program-derived addresses (`seeds = [b"event", event_id]` and
  `seeds = [b"claim", event_id, attendee]`) are modelled by the inductive
  type `Address`, whose constructor injectivity models the deterministic,
  collision-resistant derivation.
* On-chain account storage is a map `Address → Option Record`; the host
  runtime's atomic commit/rollback is modelled by the operations returning
  `Except TxError Ledger`: on error no new ledger is produced, so the state
  is unchanged.
* Anchor account processing runs in declaration order: for `CreateEvent`,
  the `init` of the event account (address-collision check) precedes the
  handler body; for `JoinEvent`, the event account is deserialized first
  (not-found check) and its `constraint` (capacity) checked, then the claim
  account is `init`-ed (collision check) and its `constraint` (event-id
  match) checked, then the handler body runs.
* Rust `u16` values are `Nat`s; the `u16` width enters through the explicit
  `% 65536` in `u16succ` (the embedding of `event.claims_count += 1`) and
  through `< 65536` side conditions on `u16`-typed arguments.
* Rust `String::len` (byte length) is `String.utf8ByteSize`.
-/

namespace SolMeet

/-- A signer identity (Solana `Pubkey`), abstracted. -/
abbrev Pubkey := Nat

/-- The `Event` account (`#[account] pub struct Event` in `lib.rs`). -/
structure Event where
  creator : Pubkey
  event_id : String
  name : String
  description : String
  venue : String
  date : String
  max_claims : Nat
  claims_count : Nat
deriving DecidableEq

/-- The `Claim` account (`#[account] pub struct Claim` in `lib.rs`). -/
structure Claim where
  attendee : Pubkey
  event_id : String
  timestamp : Int
deriving DecidableEq

/-- Program-derived addresses. `eventAddr e` models
`derive("event", e)`; `claimAddr e a` models `derive("claim", e, a)`.
Constructor injectivity models collision resistance. -/
inductive Address where
  | eventAddr (event_id : String)
  | claimAddr (event_id : String) (attendee : Pubkey)
deriving DecidableEq

/-- A record stored at an address: either an Event or a Claim account. -/
inductive Record where
  | event (e : Event)
  | claim (c : Claim)
deriving DecidableEq

/-- The program's `#[error_code] pub enum ErrorCode`. -/
inductive ErrorCode where
  | EventIdTooLong
  | NameTooLong
  | DescriptionTooLong
  | VenueTooLong
  | DateTooLong
  | InvalidMaxClaims
  | MaxClaimsReached
  | EventIdMismatch
  | AlreadyJoined
deriving DecidableEq

/-- Errors surfaced by a transaction: host-level failures of the Anchor
account constraints (`init` on an occupied address, a referenced account
that does not exist, an account whose discriminator is not the expected
one) and program errors from `ErrorCode`. -/
inductive TxError where
  | addressCollision
  | accountNotFound
  | discriminatorMismatch
  | program (e : ErrorCode)
deriving DecidableEq

/-- The on-chain state: what record, if any, each address holds. -/
structure Ledger where
  store : Address → Option Record

/-- The initial state: no record at any address. -/
def Ledger.empty : Ledger := ⟨fun _ => none⟩

/-- Write a record at an address. -/
def Ledger.set (s : Ledger) (a : Address) (r : Record) : Ledger :=
  ⟨fun a' => if a' = a then some r else s.store a'⟩

@[simp] theorem Ledger.set_store (s : Ledger) (a : Address) (r : Record) (a' : Address) :
    (s.set a r).store a' = if a' = a then some r else s.store a' := rfl

@[simp] theorem Ledger.empty_store (a : Address) : Ledger.empty.store a = none := rfl

/-- The arguments of `create_event` after the `Context`. `max_claims` is a
`u16` in the source; calls from well-typed Rust satisfy
`max_claims < 65536`. -/
structure CreateArgs where
  event_id : String
  name : String
  description : String
  venue : String
  date : String
  max_claims : Nat
deriving DecidableEq

/-- The embedding of `event.claims_count += 1` on the `u16` field
`claims_count`: successor modulo the `u16` width. -/
def u16succ (c : Nat) : Nat := (c + 1) % 65536

/-- `create_event` (`lib.rs` lines 10-41 plus the `CreateEvent` accounts
struct): the `init` of the event account at `derive("event", event_id)`
fails with an address collision if the address is occupied; then the
handler validates the six `require!`s in order and fills in the fields,
with `claims_count = 0`. -/
def create_event (s : Ledger) (creator : Pubkey) (a : CreateArgs) :
    Except TxError Ledger :=
  match s.store (Address.eventAddr a.event_id) with
  | some _ => Except.error TxError.addressCollision
  | none =>
    if a.event_id.utf8ByteSize ≤ 16 then
      if a.name.utf8ByteSize ≤ 50 then
        if a.description.utf8ByteSize ≤ 200 then
          if a.venue.utf8ByteSize ≤ 100 then
            if a.date.utf8ByteSize ≤ 30 then
              if 0 < a.max_claims then
                Except.ok (s.set (Address.eventAddr a.event_id)
                  (Record.event ⟨creator, a.event_id, a.name, a.description,
                    a.venue, a.date, a.max_claims, 0⟩))
              else Except.error (TxError.program ErrorCode.InvalidMaxClaims)
            else Except.error (TxError.program ErrorCode.DateTooLong)
          else Except.error (TxError.program ErrorCode.VenueTooLong)
        else Except.error (TxError.program ErrorCode.DescriptionTooLong)
      else Except.error (TxError.program ErrorCode.NameTooLong)
    else Except.error (TxError.program ErrorCode.EventIdTooLong)

/-- `join_event` (`lib.rs` lines 44-67 plus the `JoinEvent` accounts
struct): the event account at `derive("event", event_id)` is loaded (a
missing account is not-found; a record of the wrong kind fails the
discriminator check) and its capacity `constraint` checked; the claim
account at `derive("claim", event_id, attendee)` is `init`-ed (collision
if occupied) and its `event.event_id == event_id` `constraint` checked;
the handler re-checks capacity via `require!`, writes the claim's fields
(`timestamp` from the host clock, passed as `now`), and increments
`event.claims_count`. -/
def join_event (s : Ledger) (attendee : Pubkey) (now : Int) (event_id : String) :
    Except TxError Ledger :=
  match s.store (Address.eventAddr event_id) with
  | none => Except.error TxError.accountNotFound
  | some (Record.claim _) => Except.error TxError.discriminatorMismatch
  | some (Record.event ev) =>
    if ev.claims_count < ev.max_claims then
      match s.store (Address.claimAddr event_id attendee) with
      | some _ => Except.error TxError.addressCollision
      | none =>
        if ev.event_id = event_id then
          if ev.claims_count < ev.max_claims then
            Except.ok ((s.set (Address.claimAddr event_id attendee)
                (Record.claim ⟨attendee, event_id, now⟩)).set
              (Address.eventAddr event_id)
              (Record.event { ev with claims_count := u16succ ev.claims_count }))
          else Except.error (TxError.program ErrorCode.MaxClaimsReached)
        else Except.error (TxError.program ErrorCode.EventIdMismatch)
    else Except.error (TxError.program ErrorCode.MaxClaimsReached)

/-- Inversion of a successful `create_event`: the address was free, every
`require!` held, and the new ledger stores exactly the filled-in event. -/
theorem create_event_ok_inv {s s' : Ledger} {c : Pubkey} {a : CreateArgs}
    (h : create_event s c a = Except.ok s') :
    s.store (Address.eventAddr a.event_id) = none ∧
    a.event_id.utf8ByteSize ≤ 16 ∧ a.name.utf8ByteSize ≤ 50 ∧
    a.description.utf8ByteSize ≤ 200 ∧ a.venue.utf8ByteSize ≤ 100 ∧
    a.date.utf8ByteSize ≤ 30 ∧ 0 < a.max_claims ∧
    s' = s.set (Address.eventAddr a.event_id)
      (Record.event ⟨c, a.event_id, a.name, a.description, a.venue, a.date,
        a.max_claims, 0⟩) := by
  unfold create_event at h
  split at h
  · exact absurd h (by simp)
  next hfree =>
    split at h
    next h1 =>
      split at h
      next h2 =>
        split at h
        next h3 =>
          split at h
          next h4 =>
            split at h
            next h5 =>
              split at h
              next h6 =>
                simp only [Except.ok.injEq] at h
                exact ⟨hfree, h1, h2, h3, h4, h5, h6, h.symm⟩
              next => exact absurd h (by simp)
            next => exact absurd h (by simp)
          next => exact absurd h (by simp)
        next => exact absurd h (by simp)
      next => exact absurd h (by simp)
    next => exact absurd h (by simp)

/-- Inversion of a successful `join_event`: the event account existed, had
spare capacity, the claim address was free, the stored `event_id` matched
the argument, and the new ledger holds the fresh claim and the event with
its `claims_count` incremented. -/
theorem join_event_ok_inv {s s' : Ledger} {att : Pubkey} {now : Int} {eid : String}
    (h : join_event s att now eid = Except.ok s') :
    ∃ ev, s.store (Address.eventAddr eid) = some (Record.event ev) ∧
      ev.claims_count < ev.max_claims ∧
      s.store (Address.claimAddr eid att) = none ∧
      ev.event_id = eid ∧
      s' = (s.set (Address.claimAddr eid att) (Record.claim ⟨att, eid, now⟩)).set
        (Address.eventAddr eid)
        (Record.event { ev with claims_count := u16succ ev.claims_count }) := by
  unfold join_event at h
  split at h
  · exact absurd h (by simp)
  · exact absurd h (by simp)
  next ev hE =>
    split at h
    next hcap =>
      split at h
      · exact absurd h (by simp)
      next hC =>
        split at h
        next hid =>
          simp only [Except.ok.injEq] at h
          exact ⟨ev, hE, hcap, hC, hid, h.symm⟩
        next => exact absurd h (by simp)
    next => exact absurd h (by simp)

/-- `join_event` never returns the declared-but-unused `AlreadyJoined`
error: every failing branch raises a different error. -/
theorem join_event_no_alreadyJoined (s : Ledger) (att : Pubkey) (now : Int)
    (eid : String) :
    join_event s att now eid ≠ Except.error (TxError.program ErrorCode.AlreadyJoined) := by
  unfold join_event
  repeat' split
  all_goals simp

/-- `create_event` never returns `AlreadyJoined` either. -/
theorem create_event_no_alreadyJoined (s : Ledger) (c : Pubkey) (a : CreateArgs) :
    create_event s c a ≠ Except.error (TxError.program ErrorCode.AlreadyJoined) := by
  unfold create_event
  repeat' split
  all_goals simp

/-- Well-formedness of the store's event records: each event stored at
`derive("event", eid)` carries `eid` as its own `event_id`, respects the
capacity bound, has a positive capacity, and a capacity that fits `u16`. -/
def EventsWF (s : Ledger) : Prop :=
  ∀ eid ev, s.store (Address.eventAddr eid) = some (Record.event ev) →
    ev.event_id = eid ∧ ev.claims_count ≤ ev.max_claims ∧
    0 < ev.max_claims ∧ ev.max_claims < 65536

theorem eventsWF_empty : EventsWF Ledger.empty := by
  intro eid ev hev
  simp at hev

/-- A successful `create_event` with a `u16` capacity argument preserves
well-formedness. -/
theorem eventsWF_create {s s' : Ledger} {c : Pubkey} {a : CreateArgs}
    (hw : a.max_claims < 65536) (h : create_event s c a = Except.ok s')
    (hwf : EventsWF s) : EventsWF s' := by
  obtain ⟨hfree, -, -, -, -, -, hpos, hs'⟩ := create_event_ok_inv h
  subst hs'
  intro eid ev hev
  simp only [Ledger.set_store] at hev
  by_cases heq : eid = a.event_id
  · subst heq
    rw [if_pos rfl] at hev
    simp only [Option.some.injEq, Record.event.injEq] at hev
    subst hev
    exact ⟨rfl, Nat.zero_le _, hpos, hw⟩
  · rw [if_neg (by simp [heq])] at hev
    exact hwf eid ev hev

/-- A successful `join_event` preserves well-formedness. -/
theorem eventsWF_join {s s' : Ledger} {att : Pubkey} {now : Int} {eid : String}
    (h : join_event s att now eid = Except.ok s') (hwf : EventsWF s) :
    EventsWF s' := by
  obtain ⟨ev, hE, hcap, hC, hid, hs'⟩ := join_event_ok_inv h
  obtain ⟨-, -, hpos, hu16⟩ := hwf eid ev hE
  subst hs'
  intro eid' ev' hev'
  simp only [Ledger.set_store] at hev'
  by_cases heq : eid' = eid
  · subst heq
    rw [if_pos rfl] at hev'
    simp only [Option.some.injEq, Record.event.injEq] at hev'
    subst hev'
    have hsucc : u16succ ev.claims_count = ev.claims_count + 1 := by
      unfold u16succ
      exact Nat.mod_eq_of_lt (by omega)
    refine ⟨hid, ?_, hpos, hu16⟩
    show u16succ ev.claims_count ≤ ev.max_claims
    rw [hsucc]
    omega
  · rw [if_neg (by simp [heq])] at hev'
    rw [if_neg (by simp)] at hev'
    exact hwf eid' ev' hev'

/-- One legal operation of the program: a successful `create_event` whose
`max_claims` argument is a `u16`, or a successful `join_event`. -/
inductive Step : Ledger → Ledger → Prop
  | create {s s' : Ledger} {c : Pubkey} {a : CreateArgs}
      (hw : a.max_claims < 65536)
      (h : create_event s c a = Except.ok s') : Step s s'
  | join {s s' : Ledger} {att : Pubkey} {now : Int} {eid : String}
      (h : join_event s att now eid = Except.ok s') : Step s s'

/-- States reachable from the empty ledger by legal operations. -/
inductive Reachable : Ledger → Prop
  | empty : Reachable Ledger.empty
  | step {s s' : Ledger} (hs : Reachable s) (h : Step s s') : Reachable s'

theorem eventsWF_step {s s' : Ledger} (h : Step s s') (hwf : EventsWF s) :
    EventsWF s' := by
  cases h with
  | create hw hc => exact eventsWF_create hw hc hwf
  | join hj => exact eventsWF_join hj hwf

theorem reachable_eventsWF {s : Ledger} (h : Reachable s) : EventsWF s := by
  induction h with
  | empty => exact eventsWF_empty
  | step _ hstep ih => exact eventsWF_step hstep ih

/-- Across one legal operation, an existing event record persists and its
`claims_count` never decreases. -/
theorem step_mono {s s' : Ledger} (hstep : Step s s') (hwf : EventsWF s)
    {eid : String} {ev : Event}
    (hev : s.store (Address.eventAddr eid) = some (Record.event ev)) :
    ∃ ev', s'.store (Address.eventAddr eid) = some (Record.event ev') ∧
      ev.claims_count ≤ ev'.claims_count := by
  cases hstep with
  | @create c a hw hc =>
    obtain ⟨hfree, -, -, -, -, -, -, hs'⟩ := create_event_ok_inv hc
    subst hs'
    by_cases heq : eid = a.event_id
    · rw [heq, hfree] at hev
      exact absurd hev (by simp)
    · refine ⟨ev, ?_, le_refl _⟩
      simp only [Ledger.set_store]
      rw [if_neg (by simp [heq]), hev]
  | @join att now eid₂ hj =>
    obtain ⟨ev₀, hE, hcap, hC, hid, hs'⟩ := join_event_ok_inv hj
    obtain ⟨-, -, -, hu16⟩ := hwf _ ev₀ hE
    subst hs'
    by_cases heq : eid = eid₂
    · subst heq
      have hee : ev = ev₀ := by
        have h2 := hev.symm.trans hE
        simpa using h2
      subst hee
      have hsucc : u16succ ev.claims_count = ev.claims_count + 1 := by
        unfold u16succ
        exact Nat.mod_eq_of_lt (by omega)
      refine ⟨{ ev with claims_count := u16succ ev.claims_count }, ?_, ?_⟩
      · simp [Ledger.set_store]
      · rw [hsucc]
        exact Nat.le_succ _
    · refine ⟨ev, ?_, le_refl _⟩
      simp only [Ledger.set_store]
      rw [if_neg (by simp [heq]), if_neg (by simp), hev]

/-- Well-formedness is preserved along any sequence of legal operations. -/
theorem eventsWF_rtg {s s' : Ledger} (h : Relation.ReflTransGen Step s s')
    (hwf : EventsWF s) : EventsWF s' := by
  induction h with
  | refl => exact hwf
  | tail _ hstep ih => exact eventsWF_step hstep ih

/-- Across any sequence of legal operations, an existing event record
persists and its `claims_count` never decreases. -/
theorem rtg_mono {s s' : Ledger} (h : Relation.ReflTransGen Step s s')
    (hwf : EventsWF s) {eid : String} {ev : Event}
    (hev : s.store (Address.eventAddr eid) = some (Record.event ev)) :
    ∃ ev', s'.store (Address.eventAddr eid) = some (Record.event ev') ∧
      ev.claims_count ≤ ev'.claims_count := by
  induction h with
  | refl => exact ⟨ev, hev, le_refl _⟩
  | tail hpath hstep ih =>
    obtain ⟨ev₁, hev₁, hle₁⟩ := ih
    obtain ⟨ev₂, hev₂, hle₂⟩ := step_mono hstep (eventsWF_rtg hpath hwf) hev₁
    exact ⟨ev₂, hev₂, le_trans hle₁ hle₂⟩

/-- When the claim address is already occupied, `join_event` fails: with
the capacity error if the event is full (that `constraint` runs first),
and otherwise with the address collision from the claim account's
`init`. -/
theorem join_event_claim_occupied {s : Ledger} {att : Pubkey} {now : Int}
    {eid : String} {ev : Event} {r : Record}
    (hE : s.store (Address.eventAddr eid) = some (Record.event ev))
    (hC : s.store (Address.claimAddr eid att) = some r) :
    join_event s att now eid =
      if ev.claims_count < ev.max_claims then Except.error TxError.addressCollision
      else Except.error (TxError.program ErrorCode.MaxClaimsReached) := by
  unfold join_event
  rw [hE, hC]

/-! ### Concrete scenario states, used to witness the claim theorems -/

/-- Return the new ledger of a successful operation, a default otherwise. -/
def okOr (r : Except TxError Ledger) (d : Ledger) : Ledger :=
  match r with
  | Except.ok s => s
  | Except.error _ => d

def argsE1 : CreateArgs :=
  ⟨"E1", "Launch Meetup", "Kickoff meetup", "Hall A", "2025-01-01", 2⟩

def ledgerE1 : Ledger := okOr (create_event Ledger.empty 1 argsE1) Ledger.empty

def ledgerE2 : Ledger := okOr (join_event ledgerE1 2 100 "E1") Ledger.empty

def evE1 : Event :=
  ⟨1, "E1", "Launch Meetup", "Kickoff meetup", "Hall A", "2025-01-01", 2, 0⟩

def evE2 : Event :=
  ⟨1, "E1", "Launch Meetup", "Kickoff meetup", "Hall A", "2025-01-01", 2, 1⟩

def argsF1 : CreateArgs := ⟨"F1", "Tiny", "One seat", "Room B", "2025-02-02", 1⟩

def ledgerF1 : Ledger := okOr (create_event Ledger.empty 5 argsF1) Ledger.empty

def ledgerF2 : Ledger := okOr (join_event ledgerF1 6 50 "F1") Ledger.empty

def evF2 : Event := ⟨5, "F1", "Tiny", "One seat", "Room B", "2025-02-02", 1, 1⟩

/-- A hand-built corrupt state: the record at `derive("event", "X")`
stores `event_id = "Y"`. Not reachable by the program's own operations. -/
def corruptLedger : Ledger :=
  Ledger.empty.set (Address.eventAddr "X") (Record.event ⟨0, "Y", "n", "d", "v", "t", 5, 0⟩)

theorem reachable_ledgerE1 : Reachable ledgerE1 :=
  Reachable.step Reachable.empty
    (@Step.create Ledger.empty ledgerE1 1 argsE1 (by decide) rfl)

theorem reachable_ledgerE2 : Reachable ledgerE2 :=
  Reachable.step reachable_ledgerE1 (@Step.join ledgerE1 ledgerE2 2 100 "E1" rfl)

theorem reachable_ledgerF1 : Reachable ledgerF1 :=
  Reachable.step Reachable.empty
    (@Step.create Ledger.empty ledgerF1 5 argsF1 (by decide) rfl)

theorem reachable_ledgerF2 : Reachable ledgerF2 :=
  Reachable.step reachable_ledgerF1 (@Step.join ledgerF1 ledgerF2 6 50 "F1" rfl)

/-! ### Claim theorems -/

/-- Claim C1: for every reachable Event record,
`0 ≤ claims_count ≤ max_claims` and `max_claims > 0`; `create_event`
establishes this and `join_event` preserves it, so no sequence of the two
operations can push `claims_count` above `max_claims`. -/
theorem C1_event_capacity_invariant {s : Ledger} (h : Reachable s) :
    ∀ eid ev, s.store (Address.eventAddr eid) = some (Record.event ev) →
      0 ≤ ev.claims_count ∧ ev.claims_count ≤ ev.max_claims ∧ 0 < ev.max_claims := by
  intro eid ev hev
  obtain ⟨-, hle, hpos, -⟩ := reachable_eventsWF h eid ev hev
  exact ⟨Nat.zero_le _, hle, hpos⟩

/-- Witness for C1, on the state reached by creating event `"E1"`
(capacity 2) and joining once. -/
theorem C1_event_capacity_invariant_witness :
    Reachable ledgerE2 ∧
      (0 ≤ evE2.claims_count ∧ evE2.claims_count ≤ evE2.max_claims ∧ 0 < evE2.max_claims) :=
  ⟨reachable_ledgerE2, C1_event_capacity_invariant reachable_ledgerE2 "E1" evE2 rfl⟩

/-- Claim C2 counterexample: event `"F1"` has capacity 1 and attendee 6
already joined, so the claim address `derive("claim", "F1", 6)` is
occupied; yet the second `join_event` by attendee 6 fails with
`MaxClaimsReached`, not with the address-collision error, because the
capacity `constraint` on the event account is checked before the claim
account's `init`. -/
theorem C2_counterexample_full_event_duplicate :
    ledgerF2.store (Address.claimAddr "F1" 6) = some (Record.claim ⟨6, "F1", 50⟩) ∧
    join_event ledgerF2 6 51 "F1" =
      Except.error (TxError.program ErrorCode.MaxClaimsReached) ∧
    join_event ledgerF2 6 51 "F1" ≠ Except.error TxError.addressCollision := by
  refine ⟨rfl, rfl, ?_⟩
  intro hcol
  rw [show join_event ledgerF2 6 51 "F1" =
      Except.error (TxError.program ErrorCode.MaxClaimsReached) from rfl] at hcol
  simp at hcol

/-- Claim C2 (amended): at most one Claim record can ever exist per
`(event_id, attendee)` pair: a second `join_event` by the same attendee
for the same event always fails — via the address-collision path when the
event is still below capacity, and with `MaxClaimsReached` when it is
full (the capacity check precedes the claim allocation) — and the
declared `AlreadyJoined` error variant is never the error actually
raised, by either operation. -/
theorem C2_duplicate_claim_rejected {s s' : Ledger} {att : Pubkey}
    {now now' : Int} {eid : String} (h : join_event s att now eid = Except.ok s') :
    (∀ ev', s'.store (Address.eventAddr eid) = some (Record.event ev') →
      join_event s' att now' eid =
        (if ev'.claims_count < ev'.max_claims then Except.error TxError.addressCollision
         else Except.error (TxError.program ErrorCode.MaxClaimsReached))) ∧
    (∀ (s₂ : Ledger) (a : Pubkey) (n : Int) (e : String),
      join_event s₂ a n e ≠ Except.error (TxError.program ErrorCode.AlreadyJoined)) ∧
    (∀ (s₂ : Ledger) (c : Pubkey) (a : CreateArgs),
      create_event s₂ c a ≠ Except.error (TxError.program ErrorCode.AlreadyJoined)) := by
  refine ⟨?_, fun s₂ a n e => join_event_no_alreadyJoined s₂ a n e,
    fun s₂ c a => create_event_no_alreadyJoined s₂ c a⟩
  intro ev' hev'
  obtain ⟨ev, hE, hcap, hC, hid, hs'⟩ := join_event_ok_inv h
  have hclaim : s'.store (Address.claimAddr eid att) =
      some (Record.claim ⟨att, eid, now⟩) := by
    rw [hs']
    simp [Ledger.set_store]
  exact join_event_claim_occupied hev' hclaim

/-- Witness for C2 (amended): after one join of the capacity-2 event
`"E1"`, the duplicate join by attendee 2 collides. -/
theorem C2_duplicate_claim_rejected_witness :
    join_event ledgerE2 2 101 "E1" = Except.error TxError.addressCollision ∧
    join_event Ledger.empty 0 0 "X" ≠
      Except.error (TxError.program ErrorCode.AlreadyJoined) := by
  have h := @C2_duplicate_claim_rejected ledgerE1 ledgerE2 2 100 101 "E1" rfl
  refine ⟨?_, h.2.1 Ledger.empty 0 0 "X"⟩
  have h1 := h.1 evE2 rfl
  simpa [evE2] using h1

/-- Claim C3: a successful `create_event` stores an Event whose
`claims_count` is 0, whose `max_claims`, `event_id`, `name`,
`description`, `venue` and `date` equal the supplied arguments, and whose
`creator` is the signer. -/
theorem C3_create_event_fields {s s' : Ledger} {c : Pubkey} {a : CreateArgs}
    (h : create_event s c a = Except.ok s') :
    s'.store (Address.eventAddr a.event_id) =
      some (Record.event ⟨c, a.event_id, a.name, a.description, a.venue, a.date,
        a.max_claims, 0⟩) := by
  obtain ⟨-, -, -, -, -, -, -, hs'⟩ := create_event_ok_inv h
  subst hs'
  simp [Ledger.set_store]

/-- Witness for C3, creating event `"E1"` with capacity 2 as signer 1. -/
theorem C3_create_event_fields_witness :
    create_event Ledger.empty 1 argsE1 = Except.ok ledgerE1 ∧
    ledgerE1.store (Address.eventAddr argsE1.event_id) =
      some (Record.event ⟨1, argsE1.event_id, argsE1.name, argsE1.description,
        argsE1.venue, argsE1.date, argsE1.max_claims, 0⟩) :=
  ⟨rfl, @C3_create_event_fields Ledger.empty ledgerE1 1 argsE1 rfl⟩

/-- Claim C4: a successful `join_event` stores a new Claim carrying the
attendee, the supplied `event_id` and the host time, and increments the
target Event's `claims_count` by exactly 1, leaving every other Event
field unchanged. The `max_claims < 65536` side condition records that
`max_claims` is a `u16` in the source. -/
theorem C4_join_event_effects {s s' : Ledger} {att : Pubkey} {now : Int}
    {eid : String} {ev : Event} (h : join_event s att now eid = Except.ok s')
    (hev : s.store (Address.eventAddr eid) = some (Record.event ev))
    (hw : ev.max_claims < 65536) :
    s'.store (Address.claimAddr eid att) = some (Record.claim ⟨att, eid, now⟩) ∧
    s'.store (Address.eventAddr eid) =
      some (Record.event { ev with claims_count := ev.claims_count + 1 }) := by
  obtain ⟨ev₀, hE, hcap, hC, hid, hs'⟩ := join_event_ok_inv h
  have hee : ev₀ = ev := by
    have h2 := hE.symm.trans hev
    simpa using h2
  subst hee
  subst hs'
  have hsucc : u16succ ev₀.claims_count = ev₀.claims_count + 1 := by
    unfold u16succ
    exact Nat.mod_eq_of_lt (by omega)
  constructor
  · simp [Ledger.set_store]
  · simp [Ledger.set_store, hsucc]

/-- Witness for C4: attendee 2 joins `"E1"` at time 100. -/
theorem C4_join_event_effects_witness :
    join_event ledgerE1 2 100 "E1" = Except.ok ledgerE2 ∧
    ledgerE2.store (Address.claimAddr "E1" 2) = some (Record.claim ⟨2, "E1", 100⟩) ∧
    ledgerE2.store (Address.eventAddr "E1") =
      some (Record.event { evE1 with claims_count := evE1.claims_count + 1 }) := by
  have h := @C4_join_event_effects ledgerE1 ledgerE2 2 100 "E1" evE1 rfl rfl (by decide)
  exact ⟨rfl, h.1, h.2⟩

/-- Claim C5: an Event with `claims_count = max_claims` is terminal for
joins — `join_event` fails with `MaxClaimsReached` (and, the operation
failing, the state is unchanged) — and `claims_count` is monotonically
non-decreasing across every sequence of legal operations. -/
theorem C5_full_event_terminal {s : Ledger} {eid : String} {ev : Event}
    (hev : s.store (Address.eventAddr eid) = some (Record.event ev)) :
    (∀ (att : Pubkey) (now : Int), ev.claims_count = ev.max_claims →
      join_event s att now eid = Except.error (TxError.program ErrorCode.MaxClaimsReached)) ∧
    (∀ s', Relation.ReflTransGen Step s s' → EventsWF s →
      ∃ ev', s'.store (Address.eventAddr eid) = some (Record.event ev') ∧
        ev.claims_count ≤ ev'.claims_count) := by
  constructor
  · intro att now hfull
    unfold join_event
    rw [hev]
    have hnc : ¬ ev.claims_count < ev.max_claims := by omega
    simp [hnc]
  · intro s' hpath hwf
    exact rtg_mono hpath hwf hev

/-- Witness for C5 on the full capacity-1 event `"F1"`. -/
theorem C5_full_event_terminal_witness :
    join_event ledgerF2 7 60 "F1" =
      Except.error (TxError.program ErrorCode.MaxClaimsReached) ∧
    (∃ ev', ledgerF2.store (Address.eventAddr "F1") = some (Record.event ev') ∧
      evF2.claims_count ≤ ev'.claims_count) := by
  have h := @C5_full_event_terminal ledgerF2 "F1" evF2 rfl
  exact ⟨h.1 7 60 (by decide), h.2 ledgerF2 Relation.ReflTransGen.refl
    (reachable_eventsWF reachable_ledgerF2)⟩

/-- Claim C6: with the target address free, `create_event` reports the
first violated constraint in the fixed check order — event_id ≤ 16,
name ≤ 50, description ≤ 200, venue ≤ 100, date ≤ 30, `max_claims > 0` —
and, the operation failing, no Event record is created and the state is
unchanged. -/
theorem C6_validation_first_error {s : Ledger} {c : Pubkey} {a : CreateArgs}
    (hfree : s.store (Address.eventAddr a.event_id) = none) :
    (¬ a.event_id.utf8ByteSize ≤ 16 →
      create_event s c a = Except.error (TxError.program ErrorCode.EventIdTooLong)) ∧
    (a.event_id.utf8ByteSize ≤ 16 → ¬ a.name.utf8ByteSize ≤ 50 →
      create_event s c a = Except.error (TxError.program ErrorCode.NameTooLong)) ∧
    (a.event_id.utf8ByteSize ≤ 16 → a.name.utf8ByteSize ≤ 50 →
      ¬ a.description.utf8ByteSize ≤ 200 →
      create_event s c a = Except.error (TxError.program ErrorCode.DescriptionTooLong)) ∧
    (a.event_id.utf8ByteSize ≤ 16 → a.name.utf8ByteSize ≤ 50 →
      a.description.utf8ByteSize ≤ 200 → ¬ a.venue.utf8ByteSize ≤ 100 →
      create_event s c a = Except.error (TxError.program ErrorCode.VenueTooLong)) ∧
    (a.event_id.utf8ByteSize ≤ 16 → a.name.utf8ByteSize ≤ 50 →
      a.description.utf8ByteSize ≤ 200 → a.venue.utf8ByteSize ≤ 100 →
      ¬ a.date.utf8ByteSize ≤ 30 →
      create_event s c a = Except.error (TxError.program ErrorCode.DateTooLong)) ∧
    (a.event_id.utf8ByteSize ≤ 16 → a.name.utf8ByteSize ≤ 50 →
      a.description.utf8ByteSize ≤ 200 → a.venue.utf8ByteSize ≤ 100 →
      a.date.utf8ByteSize ≤ 30 → a.max_claims = 0 →
      create_event s c a = Except.error (TxError.program ErrorCode.InvalidMaxClaims)) := by
  refine ⟨?_, ?_, ?_, ?_, ?_, ?_⟩
  · intro h1
    unfold create_event
    rw [hfree]
    simp [h1]
  · intro h1 h2
    unfold create_event
    rw [hfree]
    simp [h1, h2]
  · intro h1 h2 h3
    unfold create_event
    rw [hfree]
    simp [h1, h2, h3]
  · intro h1 h2 h3 h4
    unfold create_event
    rw [hfree]
    simp [h1, h2, h3, h4]
  · intro h1 h2 h3 h4 h5
    unfold create_event
    rw [hfree]
    simp [h1, h2, h3, h4, h5]
  · intro h1 h2 h3 h4 h5 h6
    unfold create_event
    rw [hfree]
    simp [h1, h2, h3, h4, h5, h6]

/-- Creation arguments with a 51-character name, used to witness C6. -/
def argsLong : CreateArgs :=
  ⟨"L1", "123456789012345678901234567890123456789012345678901", "d", "v", "2025", 5⟩

/-- Witness for C6: a 51-character name is rejected with `NameTooLong`. -/
theorem C6_validation_first_error_witness :
    Ledger.empty.store (Address.eventAddr argsLong.event_id) = none ∧
    argsLong.event_id.utf8ByteSize ≤ 16 ∧
    ¬ argsLong.name.utf8ByteSize ≤ 50 ∧
    create_event Ledger.empty 9 argsLong =
      Except.error (TxError.program ErrorCode.NameTooLong) :=
  ⟨rfl, by decide, by decide,
    (@C6_validation_first_error Ledger.empty 9 argsLong rfl).2.1 (by decide) (by decide)⟩

/-- Claim C7: a second `create_event` with an already-used `event_id`
fails with the address-collision error from the event account's `init`
(there is no other existence check in the code), and — the operation
failing — the first Event's record is untouched. -/
theorem C7_duplicate_event_id {s s' : Ledger} {c c' : Pubkey} {a a' : CreateArgs}
    (h : create_event s c a = Except.ok s') (hid : a'.event_id = a.event_id) :
    create_event s' c' a' = Except.error TxError.addressCollision ∧
    s'.store (Address.eventAddr a.event_id) =
      some (Record.event ⟨c, a.event_id, a.name, a.description, a.venue, a.date,
        a.max_claims, 0⟩) := by
  obtain ⟨hfree, -, -, -, -, -, -, hs'⟩ := create_event_ok_inv h
  have hstore : s'.store (Address.eventAddr a.event_id) =
      some (Record.event ⟨c, a.event_id, a.name, a.description, a.venue, a.date,
        a.max_claims, 0⟩) := by
    rw [hs']
    simp [Ledger.set_store]
  refine ⟨?_, hstore⟩
  unfold create_event
  rw [hid, hstore]

/-- Witness for C7: creating `"E1"` twice; the second create collides. -/
theorem C7_duplicate_event_id_witness :
    create_event Ledger.empty 1 argsE1 = Except.ok ledgerE1 ∧
    create_event ledgerE1 3 argsE1 = Except.error TxError.addressCollision :=
  ⟨rfl, (@C7_duplicate_event_id Ledger.empty ledgerE1 1 3 argsE1 argsE1 rfl rfl).1⟩

/-- Claim C8: `join_event`'s preconditions are checked in the fixed
order, first failure wins: missing event account → not-found; then
`claims_count < max_claims` → `MaxClaimsReached`; then an occupied claim
address → address collision; then a stored `event_id` differing from the
argument → `EventIdMismatch` (each error leaving the state unchanged,
the operation failing). -/
theorem C8_join_check_order {s : Ledger} {att : Pubkey} {now : Int} {eid : String} :
    (s.store (Address.eventAddr eid) = none →
      join_event s att now eid = Except.error TxError.accountNotFound) ∧
    (∀ ev, s.store (Address.eventAddr eid) = some (Record.event ev) →
      ¬ ev.claims_count < ev.max_claims →
      join_event s att now eid = Except.error (TxError.program ErrorCode.MaxClaimsReached)) ∧
    (∀ ev r, s.store (Address.eventAddr eid) = some (Record.event ev) →
      ev.claims_count < ev.max_claims →
      s.store (Address.claimAddr eid att) = some r →
      join_event s att now eid = Except.error TxError.addressCollision) ∧
    (∀ ev, s.store (Address.eventAddr eid) = some (Record.event ev) →
      ev.claims_count < ev.max_claims →
      s.store (Address.claimAddr eid att) = none →
      ev.event_id ≠ eid →
      join_event s att now eid = Except.error (TxError.program ErrorCode.EventIdMismatch)) := by
  refine ⟨?_, ?_, ?_, ?_⟩
  · intro h1
    unfold join_event
    rw [h1]
  · intro ev hev hcap
    unfold join_event
    rw [hev]
    simp [hcap]
  · intro ev r hev hcap hC
    unfold join_event
    rw [hev, hC]
    simp [hcap]
  · intro ev hev hcap hC hne
    unfold join_event
    rw [hev, hC]
    simp [hcap, hne]

/-- Witness for C8: each of the four failure paths hit on a concrete
state (the mismatch one on a hand-corrupted record, which §C10 shows the
program itself can never produce). -/
theorem C8_join_check_order_witness :
    join_event Ledger.empty 2 0 "E1" = Except.error TxError.accountNotFound ∧
    join_event ledgerF2 9 0 "F1" =
      Except.error (TxError.program ErrorCode.MaxClaimsReached) ∧
    join_event ledgerE2 2 101 "E1" = Except.error TxError.addressCollision ∧
    join_event corruptLedger 1 0 "X" =
      Except.error (TxError.program ErrorCode.EventIdMismatch) := by
  refine ⟨(@C8_join_check_order Ledger.empty 2 0 "E1").1 rfl, ?_, ?_, ?_⟩
  · exact (@C8_join_check_order ledgerF2 9 0 "F1").2.1 evF2 rfl (by decide)
  · exact (@C8_join_check_order ledgerE2 2 101 "E1").2.2.1 evE2
      (Record.claim ⟨2, "E1", 100⟩) rfl (by decide) rfl
  · exact (@C8_join_check_order corruptLedger 1 0 "X").2.2.2
      ⟨0, "Y", "n", "d", "v", "t", 5, 0⟩ rfl (by decide) rfl (by decide)

/-- Claim C9: the `u16` increment `event.claims_count += 1` in
`join_event` cannot overflow: under the checked precondition
`claims_count < max_claims` with `max_claims` a `u16`, the wrap in
`u16succ` is the identity, and the stored result is exactly
`claims_count + 1`. -/
theorem C9_increment_no_overflow {s s' : Ledger} {att : Pubkey} {now : Int}
    {eid : String} {ev : Event} (h : join_event s att now eid = Except.ok s')
    (hev : s.store (Address.eventAddr eid) = some (Record.event ev))
    (hw : ev.max_claims < 65536) :
    u16succ ev.claims_count = ev.claims_count + 1 ∧
    s'.store (Address.eventAddr eid) =
      some (Record.event { ev with claims_count := ev.claims_count + 1 }) := by
  obtain ⟨ev₀, hE, hcap, hC, hid, hs'⟩ := join_event_ok_inv h
  have hee : ev₀ = ev := by
    have h2 := hE.symm.trans hev
    simpa using h2
  subst hee
  subst hs'
  have hsucc : u16succ ev₀.claims_count = ev₀.claims_count + 1 := by
    unfold u16succ
    exact Nat.mod_eq_of_lt (by omega)
  exact ⟨hsucc, by simp [Ledger.set_store, hsucc]⟩

/-- Witness for C9 on the join of `"E1"`. -/
theorem C9_increment_no_overflow_witness :
    u16succ evE1.claims_count = evE1.claims_count + 1 ∧
    ledgerE2.store (Address.eventAddr "E1") =
      some (Record.event { evE1 with claims_count := evE1.claims_count + 1 }) :=
  @C9_increment_no_overflow ledgerE1 ledgerE2 2 100 "E1" evE1 rfl rfl (by decide)

/-- Claim C10: in every reachable state, each Event record stores the
`event_id` used as the seed of its address, and therefore the
`EventIdMismatch` check in `join_event` never fires — it guards only
records the program did not create. -/
theorem C10_stored_id_matches_seed {s : Ledger} (h : Reachable s) :
    (∀ eid ev, s.store (Address.eventAddr eid) = some (Record.event ev) →
      ev.event_id = eid) ∧
    (∀ (att : Pubkey) (now : Int) (eid : String),
      join_event s att now eid ≠ Except.error (TxError.program ErrorCode.EventIdMismatch)) := by
  have hwf := reachable_eventsWF h
  constructor
  · intro eid ev hev
    exact (hwf eid ev hev).1
  · intro att now eid hmis
    unfold join_event at hmis
    split at hmis
    · simp at hmis
    · simp at hmis
    next ev hE =>
      split at hmis
      next hcap =>
        split at hmis
        · simp at hmis
        next hC =>
          split at hmis
          next hid => simp at hmis
          next hid => exact hid ((hwf eid ev hE).1)
      next hcap => simp at hmis

/-- Witness for C10 on the reachable state with events `"E1"` joined
once. -/
theorem C10_stored_id_matches_seed_witness :
    Reachable ledgerE2 ∧ evE2.event_id = "E1" ∧
    join_event ledgerE2 7 200 "E1" ≠
      Except.error (TxError.program ErrorCode.EventIdMismatch) := by
  have h := C10_stored_id_matches_seed reachable_ledgerE2
  exact ⟨reachable_ledgerE2, h.1 "E1" evE2 rfl, h.2 7 200 "E1"⟩

end SolMeet
